import Mathlib

/-!
Shallow embedding of the `caustic` gravitational-lensing core.

The embedding covers the abstract lens interfaces `ThickLens` and `ThinLens`
from `caustic/lenses/base.py`, together with the `ExternalShear` profile from
`caustics/lenses/external_shear.py`.  Coordinate tensors are functions from an
arbitrary batch-index type `ι` to the rationals; every tensor operation of the
source is pointwise, so an arbitrary `ι` captures "for all coordinate batch
shapes".  Stateful torch behaviour (warnings, raised errors, gradient-tracking
flags) is made explicit: fallible methods return `Except`, warning emission is
a returned list of messages, and tensors that carry an autograd flag are pairs
of a value and a `Bool`.  External collaborators that are consumed but not part
of the sources (the cosmology, the parameter container, the autodiff and FFT
substrate, `get_magnification`) are modelled from the specification, each with
a doc comment saying so.
-/

/-- A coordinate tensor: a rational value at every index of an arbitrary batch
shape `ι`.  All source tensor operations are pointwise over the batch. -/
abbrev Tensor (ι : Type) := ι → ℚ

/-- A zero tensor with the same (type-level) shape as the argument, the
embedding of `torch.zeros_like`. -/
def zeros_like {ι : Type} (_t : Tensor ι) : Tensor ι := fun _ => 0

/-- Modelled from the spec: `caustic/constants.py` is not among the sources.
The specification only uses that `arcsec_to_rad` converts arcseconds to
radians (π / (180·3600)); every claim treats it symbolically, so it is fixed
here to a nonzero rational stand-in of that magnitude. -/
def arcsec_to_rad : ℚ := 1 / 206265

/-- Modelled from the spec: `caustic/constants.py` is not among the sources.
The specification says `c` is the speed of light in megaparsecs per second;
every claim treats it symbolically, so it is fixed here to the rational
299792458 m/s divided by the metres in a megaparsec. -/
def c_Mpc_s : ℚ := 299792458 / 30856775814913673000000

/-- Modelled from the spec: the cosmology collaborator (external to the core,
spec §6) supplies angular-diameter distances and the critical surface density,
each resolved against the per-call parameter container of type `P`. -/
structure Cosmology (P : Type) where
  angular_diameter_distance : ℚ → P → ℚ
  angular_diameter_distance_z1z2 : ℚ → ℚ → P → ℚ
  critical_surface_density : ℚ → ℚ → P → ℚ

/-- Modelled from the spec: the reverse-mode automatic-differentiation
capability of the external tensor substrate (spec §2, §4.4).  For a
raytrace-like pointwise map `f : (x, y, z_s) ↦ (out_x, out_y)`,
`jacobian f x y z_s i` is the 2×2 Jacobian of that map at batch index `i`. -/
structure Autograd (ι : Type) where
  jacobian : (Tensor ι → Tensor ι → ℚ → Tensor ι × Tensor ι) →
    Tensor ι → Tensor ι → ℚ → ι → Matrix (Fin 2) (Fin 2) ℚ

/-- Modelled from the spec: `get_magnification` (`caustic/lenses/utils.py`, not
among the sources) computes the local area-distortion factor `1 / det J`,
where `J` is the autodiff Jacobian of the supplied observed→source raytrace
map, batched, with the result matching the input coordinate shape. -/
def get_magnification {ι : Type} (ad : Autograd ι)
    (raytrace : Tensor ι → Tensor ι → ℚ → Tensor ι × Tensor ι)
    (x y : Tensor ι) (z_s : ℚ) : Tensor ι :=
  fun i => 1 / (ad.jacobian raytrace x y z_s i).det

/-- The `ThickLens` interface: a cosmology plus the three primitives a
subclass must supply (`raytrace`, `surface_density`, `time_delay`). -/
structure ThickLens (ι P : Type) where
  cosmology : Cosmology P
  raytrace : Tensor ι → Tensor ι → ℚ → P → Tensor ι × Tensor ι
  surface_density : Tensor ι → Tensor ι → ℚ → P → Tensor ι
  time_delay : Tensor ι → Tensor ι → ℚ → P → Tensor ι

/-- Warning text emitted by `ThickLens.reduced_deflection_angle`
(`caustic/lenses/base.py` line 52). -/
def thickLensDeprecationMsg : String :=
  "ThickLens objects do not have a reduced deflection angle since they have no unique lens redshift. The distance D_{ls} is undefined in the equation $\\alpha_{reduced} = \\frac{D_{ls}}{D_s}\\alpha_{physical}$. See `effective_reduced_deflection_angle`. Now using effective_reduced_deflection_angle, please switch functions to remove this warning"

/-- Message of the `NotImplementedError` raised by
`ThickLens.physical_deflection_angle` (`caustic/lenses/base.py` line 95). -/
def thickLensPhysicalMsg : String :=
  "Physical deflection angles are computed with respect to a lensing plane. ThickLens objects have no unique definition of a lens plane and so cannot compute a physical_deflection_angle"

/-- Effective reduced deflection angle of a thick lens: `(x - β_x, y - β_y)`
where `(β_x, β_y) = raytrace(x, y, z_s, params)`. -/
def ThickLens.effective_reduced_deflection_angle {ι P : Type} (l : ThickLens ι P)
    (x y : Tensor ι) (z_s : ℚ) (p : P) : Tensor ι × Tensor ι :=
  let b := l.raytrace x y z_s p
  (x - b.1, y - b.2)

/-- Deprecated `ThickLens.reduced_deflection_angle`: emits one warning and
delegates to `effective_reduced_deflection_angle`.  The result carries the
list of warning messages the call emits; no error is ever raised. -/
def ThickLens.reduced_deflection_angle {ι P : Type} (l : ThickLens ι P)
    (x y : Tensor ι) (z_s : ℚ) (p : P) :
    Except String ((Tensor ι × Tensor ι) × List String) :=
  .ok (l.effective_reduced_deflection_angle x y z_s p, [thickLensDeprecationMsg])

/-- `ThickLens.physical_deflection_angle` raises `NotImplementedError` for
every input: a thick lens has no unique lens plane. -/
def ThickLens.physical_deflection_angle {ι P : Type} (_l : ThickLens ι P)
    (_x _y : Tensor ι) (_z_s : ℚ) (_p : P) : Except String (Tensor ι × Tensor ι) :=
  .error thickLensPhysicalMsg

/-- `ThickLens.magnification`: the shared utility applied to this class's own
`raytrace` with the parameter container partially applied. -/
def ThickLens.magnification {ι P : Type} (l : ThickLens ι P) (ad : Autograd ι)
    (x y : Tensor ι) (z_s : ℚ) (p : P) : Tensor ι :=
  get_magnification ad (fun a b zs => l.raytrace a b zs p) x y z_s

/-- The `ThinLens` interface: a cosmology, the resolved declared parameters
(`z_l` declared by `ThinLens.__init__`, plus the subclass's own declared
parameters), and the three primitives a subclass must supply
(`reduced_deflection_angle`, `convergence`, `potential`). -/
structure ThinLens (ι P : Type) where
  cosmology : Cosmology P
  z_l : P → ℚ
  subclass_params : P → List ℚ
  reduced_deflection_angle : Tensor ι → Tensor ι → ℚ → P → Tensor ι × Tensor ι
  convergence : Tensor ι → Tensor ι → ℚ → P → Tensor ι
  potential : Tensor ι → Tensor ι → ℚ → P → Tensor ι

/-- Modelled from the spec: `Parametrized.unpack` (`caustic/parametrized.py`,
not among the sources) resolves the declared dynamic parameters of an object
in declaration order, with superclass-declared parameters unpacking before
subclass-declared ones (spec §4.3).  `ThinLens.__init__` declares `z_l`, so
the unpacked tuple starts with `z_l` followed by the subclass parameters. -/
def ThinLens.unpack {ι P : Type} (l : ThinLens ι P) (p : P) : List ℚ :=
  l.z_l p :: l.subclass_params p

/-- `ThinLens.physical_deflection_angle`: `(D_s / D_ls) · α` componentwise,
with `z_l` taken from the head of the unpacked parameter tuple. -/
def ThinLens.physical_deflection_angle {ι P : Type} (l : ThinLens ι P)
    (x y : Tensor ι) (z_s : ℚ) (p : P) : Tensor ι × Tensor ι :=
  let z_l := (l.unpack p).headD 0
  let d_s := l.cosmology.angular_diameter_distance z_s p
  let d_ls := l.cosmology.angular_diameter_distance_z1z2 z_l z_s p
  let a := l.reduced_deflection_angle x y z_s p
  (fun i => d_s / d_ls * a.1 i, fun i => d_s / d_ls * a.2 i)

/-- `ThinLens.surface_density`: convergence multiplied by the cosmology's
critical surface density at `(z_l, z_s)`, with `z_l` taken from the head of
the unpacked parameter tuple (superclass parameters come first). -/
def ThinLens.surface_density {ι P : Type} (l : ThinLens ι P)
    (x y : Tensor ι) (z_s : ℚ) (p : P) : Tensor ι :=
  let z_l := (l.unpack p).headD 0
  let critical_surface_density := l.cosmology.critical_surface_density z_l z_s p
  fun i => l.convergence x y z_s p i * critical_surface_density

/-- `ThinLens.raytrace`: subtracts the reduced deflection angles from the
input coordinates. -/
def ThinLens.raytrace {ι P : Type} (l : ThinLens ι P)
    (x y : Tensor ι) (z_s : ℚ) (p : P) : Tensor ι × Tensor ι :=
  let a := l.reduced_deflection_angle x y z_s p
  (x - a.1, y - a.2)

/-- `ThinLens.time_delay`, translated operation for operation from the source:
`factor = (1 + z_l) / c_Mpc_s * d_s * d_l / d_ls`,
`fp = 0.5 * d_ls**2 / d_s**2 * (ax**2 + ay**2) - potential`, and the result is
`factor * fp * arcsec_to_rad**2`. -/
def ThinLens.time_delay {ι P : Type} (l : ThinLens ι P)
    (x y : Tensor ι) (z_s : ℚ) (p : P) : Tensor ι :=
  let z_l := (l.unpack p).headD 0
  let d_l := l.cosmology.angular_diameter_distance z_l p
  let d_s := l.cosmology.angular_diameter_distance z_s p
  let d_ls := l.cosmology.angular_diameter_distance_z1z2 z_l z_s p
  let a := l.reduced_deflection_angle x y z_s p
  let pot := l.potential x y z_s p
  let factor := (1 + z_l) / c_Mpc_s * d_s * d_l / d_ls
  fun i => factor * (1 / 2 * d_ls ^ 2 / d_s ^ 2 * (a.1 i ^ 2 + a.2 i ^ 2) - pot i) * arcsec_to_rad ^ 2

/-- The time-delay formula exactly as the specification words it:
`factor · fp · (arcsec→rad)²` with `factor = (1 + z_l)/c · D_s·D_l/D_ls` and
`fp = ½ · (D_ls/D_s)² · (α_x² + α_y²) − ψ`, where `(α_x, α_y)` is the reduced
deflection angle, `ψ` the potential, and `D_l`, `D_s`, `D_ls` the cosmology's
angular-diameter distances at `z_l`, `z_s` and `(z_l, z_s)`. -/
def timeDelaySpec {ι P : Type} (l : ThinLens ι P)
    (x y : Tensor ι) (z_s : ℚ) (p : P) : Tensor ι :=
  let z_l := (l.unpack p).headD 0
  let d_l := l.cosmology.angular_diameter_distance z_l p
  let d_s := l.cosmology.angular_diameter_distance z_s p
  let d_ls := l.cosmology.angular_diameter_distance_z1z2 z_l z_s p
  let a := l.reduced_deflection_angle x y z_s p
  let psi := l.potential x y z_s p
  let factor := (1 + z_l) / c_Mpc_s * (d_s * d_l / d_ls)
  fun i => factor * (1 / 2 * (d_ls / d_s) ^ 2 * (a.1 i ^ 2 + a.2 i ^ 2) - psi i) * arcsec_to_rad ^ 2

/-- `ThinLens.magnification`: the shared utility applied to this class's own
`raytrace` with the parameter container partially applied. -/
def ThinLens.magnification {ι P : Type} (l : ThinLens ι P) (ad : Autograd ι)
    (x y : Tensor ι) (z_s : ℚ) (p : P) : Tensor ι :=
  get_magnification ad (fun a b zs => l.raytrace a b zs p) x y z_s

/-- A tensor object together with its autograd gradient-tracking flag, the
part of torch tensor state the Jacobian code manipulates.  `detach` yields a
fresh untracked copy; `requires_grad_` enables tracking on the object it is
called on (in the embedding, on the copy it receives). -/
structure TTensor (ι : Type) where
  val : Tensor ι
  requires_grad : Bool

/-- Embedding of `Tensor.detach`: a copy that does not track gradients. -/
def TTensor.detach {ι : Type} (t : TTensor ι) : TTensor ι := ⟨t.val, false⟩

/-- Embedding of the in-place `Tensor.requires_grad_()` applied to the
receiving object: same values, tracking enabled. -/
def TTensor.requires_grad_ {ι : Type} (t : TTensor ι) : TTensor ι := ⟨t.val, true⟩

/-- A batched 2×2 Jacobian tensor (`(..., 2, 2)` shape in the source) with its
gradient-tracking flag. -/
structure JacTensor (ι : Type) where
  val : ι → Matrix (Fin 2) (Fin 2) ℚ
  requires_grad : Bool

/-- Embedding of `Tensor.detach` for the Jacobian tensor. -/
def JacTensor.detach {ι : Type} (J : JacTensor ι) : JacTensor ι := ⟨J.val, false⟩

/-- Translation of `ThinLens._jacobian_reduced_deflection_angle_autograd`.
The method rebinds its local names to detached, tracking-enabled copies of
`x` and `y`, evaluates the deflection field on those copies, assembles the
four `torch.autograd.grad` partial derivatives (the substrate's 2×2 Jacobian
of the pointwise deflection map); writing those `create_graph=True` gradients
into `J` leaves `J` tracked until the final `J.detach()`.  The caller's tensor
objects flow through untouched and are returned as the explicit trailing
state. -/
def ThinLens._jacobian_reduced_deflection_angle_autograd {ι P : Type}
    (l : ThinLens ι P) (ad : Autograd ι) (x y : TTensor ι) (z_s : ℚ) (p : P) :
    JacTensor ι × TTensor ι × TTensor ι :=
  let xg := x.detach.requires_grad_
  let yg := y.detach.requires_grad_
  let J : JacTensor ι :=
    ⟨ad.jacobian (fun a b zs => l.reduced_deflection_angle a b zs p) xg.val yg.val z_s, true⟩
  (J.detach, x, y)

/-- A square two-dimensional coordinate grid, the batch shape the FFT
Jacobian method assumes (`x.shape[-1] = n`, coordinates from a meshgrid). -/
abbrev Grid2 (n : ℕ) := Fin n × Fin n

/-- Translation of `torch.fft.fftfreq N (d := pixelscale)`: sample frequencies
`0, 1, …, ⌈N/2⌉ − 1, −⌊N/2⌋, …, −1`, each divided by `d · N`. -/
def fftfreq (N : ℕ) (d : ℚ) (i : Fin N) : ℚ :=
  if (i : ℕ) < (N + 1) / 2 then (i : ℚ) / (d * N) else ((i : ℚ) - N) / (d * N)

/-- Modelled from the spec: the complex-tensor Fourier operations of the
external tensor substrate (`torch.fft.fft2`, `torch.fft.ifft2`, complex
magnitude `torch.abs`, real-to-complex embedding and complex multiplication),
over an abstract complex-scalar type `C`; the real-valued frequency grid and
the surrounding algebra are concrete. -/
structure TorchFFT (C : Type) where
  ofReal : ℚ → C
  cmul : C → C → C
  fft2 : (m : ℕ) → (Fin m → Fin m → C) → Fin m → Fin m → C
  ifft2 : (m : ℕ) → (Fin m → Fin m → C) → Fin m → Fin m → C
  cabs : C → ℚ

/-- Translation of `ThinLens._lensing_jacobian_fft_method`: compute the
potential on the grid, build the `fftfreq` meshgrid (xy indexing), zero-pad
the potential to double size, forward-FFT, multiply by `−kx²`, `−ky²`,
`−kx·ky` for the three second partials, inverse-FFT, take the magnitude, crop
back to the original size, and assemble
`[[1 − ψ_xx, −ψ_xy], [−ψ_xy, 1 − ψ_yy]]`. -/
def ThinLens._lensing_jacobian_fft_method {n : ℕ} {P C : Type} (l : ThinLens (Grid2 n) P)
    (fft : TorchFFT C) (x y : Tensor (Grid2 n)) (z_s : ℚ) (pixelscale : ℚ) (p : P) :
    Grid2 n → Matrix (Fin 2) (Fin 2) ℚ :=
  let potential := l.potential x y z_s p
  let k := fftfreq (2 * n) pixelscale
  let kx : Grid2 (2 * n) → ℚ := fun ij => k ij.2
  let ky : Grid2 (2 * n) → ℚ := fun ij => k ij.1
  let padded : Fin (2 * n) → Fin (2 * n) → C := fun i j =>
    if h : (i : ℕ) < n ∧ (j : ℕ) < n then fft.ofReal (potential (⟨i, h.1⟩, ⟨j, h.2⟩))
    else fft.ofReal 0
  let potential_tilde := fft.fft2 (2 * n) padded
  let second : (Grid2 (2 * n) → ℚ) → Grid2 n → ℚ := fun w ij =>
    fft.cabs (fft.ifft2 (2 * n)
      (fun a b => fft.cmul (fft.ofReal (w (a, b))) (potential_tilde a b))
      (Fin.castLE (by omega) ij.1) (Fin.castLE (by omega) ij.2))
  let potential_xx := second (fun ij => -(kx ij) ^ 2)
  let potential_yy := second (fun ij => -(ky ij) ^ 2)
  let potential_xy := second (fun ij => -(kx ij) * ky ij)
  fun ij => !![1 - potential_xx ij, -(potential_xy ij); -(potential_xy ij), 1 - potential_yy ij]

/-- Message of the `ValueError` raised when the `"fft"` Jacobian method is
requested without a pixelscale (`caustic/lenses/base.py` line 410). -/
def fftPixelscaleMsg : String :=
  "FFT lensing jacobian requires regular grid and known pixelscale. Please include the pixelscale argument"

/-- Message of the `ValueError` raised for an unrecognised Jacobian method
(`caustic/lenses/base.py` line 413). -/
def methodChoicesMsg : String :=
  "method should be one of: autograd, fft"

/-- Translation of `ThinLens.jacobian_reduced_deflection_angle`: dispatch on
`method`, raising `ValueError` for a missing pixelscale in the `"fft"` branch
and for an unrecognised method. -/
def ThinLens.jacobian_reduced_deflection_angle {n : ℕ} {P C : Type}
    (l : ThinLens (Grid2 n) P) (ad : Autograd (Grid2 n)) (fft : TorchFFT C)
    (x y : TTensor (Grid2 n)) (z_s : ℚ) (p : P)
    (method : String) (pixelscale : Option ℚ) :
    Except String (Grid2 n → Matrix (Fin 2) (Fin 2) ℚ) :=
  if method = "autograd" then
    .ok (l._jacobian_reduced_deflection_angle_autograd ad x y z_s p).1.val
  else if method = "fft" then
    match pixelscale with
    | none => .error fftPixelscaleMsg
    | some ps => .ok (l._lensing_jacobian_fft_method fft x.val y.val z_s ps p)
  else
    .error methodChoicesMsg

/-- Modelled from the spec: `func.reduced_deflection_angle_external_shear`
(`caustics/lenses/func`, not among the sources).  Spec §8 gives the
uniform-shear deflection field `α_x = γ1·x + γ2·y`, `α_y = γ2·x − γ1·y`,
taken about the shear centre `(x0, y0)`. -/
def reduced_deflection_angle_external_shear {ι : Type} (x0 y0 gamma_1 gamma_2 : ℚ)
    (x y : Tensor ι) : Tensor ι × Tensor ι :=
  (fun i => gamma_1 * (x i - x0) + gamma_2 * (y i - y0),
   fun i => gamma_2 * (x i - x0) - gamma_1 * (y i - y0))

/-- Modelled from the spec: `func.potential_external_shear`
(`caustics/lenses/func`, not among the sources).  The quadratic potential
whose gradient is the linear deflection field of spec §8, about the shear
centre. -/
def potential_external_shear {ι : Type} (x0 y0 gamma_1 gamma_2 : ℚ)
    (x y : Tensor ι) : Tensor ι :=
  fun i => 1 / 2 * gamma_1 * ((x i - x0) ^ 2 - (y i - y0) ^ 2)
    + gamma_2 * (x i - x0) * (y i - y0)

/-- The `ExternalShear` lens profile as a `ThinLens` instance.  Its declared
parameters, in declaration order, are `x0, y0, gamma_1, gamma_2` (after the
inherited `z_l`); its `convergence` is `torch.zeros_like(x)` unconditionally,
with no dependence on the shear parameters. -/
def ExternalShear {ι P : Type} (cosmology : Cosmology P)
    (z_l x0 y0 gamma_1 gamma_2 : P → ℚ) : ThinLens ι P where
  cosmology := cosmology
  z_l := z_l
  subclass_params := fun p => [x0 p, y0 p, gamma_1 p, gamma_2 p]
  reduced_deflection_angle := fun x y _zs p =>
    reduced_deflection_angle_external_shear (x0 p) (y0 p) (gamma_1 p) (gamma_2 p) x y
  potential := fun x y _zs p =>
    potential_external_shear (x0 p) (y0 p) (gamma_1 p) (gamma_2 p) x y
  convergence := fun x _y _zs _p => zeros_like x

/-- A concrete cosmology over the trivial parameter container, used to
instantiate universally quantified statements at a specific lens. -/
def unitCosmology : Cosmology Unit :=
  ⟨fun _ _ => 1, fun _ _ _ => 1, fun _ _ _ => 1⟩

/-- A concrete autodiff substrate on the 1×1 grid whose Jacobian oracle is
constantly the identity matrix. -/
def unitAutograd : Autograd (Grid2 1) :=
  ⟨fun _ _ _ _ _ => 1⟩

/-- A concrete FFT substrate whose complex scalars are rationals and whose
transforms are the identity. -/
def unitFFT : TorchFFT ℚ :=
  ⟨id, fun a b => a * b, fun _ f => f, fun _ f => f, id⟩

/-- A concrete thin lens on the 1×1 grid over the trivial parameter
container. -/
def unitLens : ThinLens (Grid2 1) Unit where
  cosmology := unitCosmology
  z_l := fun _ => 0
  subclass_params := fun _ => []
  reduced_deflection_angle := fun x y _ _ => (x, y)
  convergence := fun x _ _ _ => x
  potential := fun x _ _ _ => x

/-- A concrete flagged tensor on the 1×1 grid. -/
def unitT : TTensor (Grid2 1) := ⟨fun _ => 0, false⟩

/-- An unrecognised Jacobian method name. -/
def bogusMethod : String := "bogus"

/-- The `"autograd"` Jacobian method name. -/
def autogradMethod : String := "autograd"

/-- The `"fft"` Jacobian method name. -/
def fftMethod : String := "fft"

/-- Key phrase of the thick-lens deprecation warning: the undefined
distance. -/
def dlsUndefinedPhrase : String := "D_{ls} is undefined"

/-- Key phrase of the thick-lens deprecation warning: the recommended
replacement. -/
def effectiveAnglePhrase : String := "effective_reduced_deflection_angle"

set_option maxRecDepth 20000

/-- C1: for every `ThinLens` and all coordinate tensors `x`, `y`, source
redshift `z_s` and parameter container `p`, `time_delay` equals
`factor · fp · arcsec_to_rad²` with `factor = (1 + z_l)/c · D_s·D_l/D_ls`,
`fp = ½·(D_ls/D_s)²·(α_x² + α_y²) − ψ`, `(α_x, α_y)` the reduced deflection
angle, `ψ` the potential, and `D_l`, `D_s`, `D_ls` the cosmology's
angular-diameter distances at `z_l`, `z_s` and `(z_l, z_s)`. -/
theorem time_delay_matches_spec_formula {ι P : Type} (l : ThinLens ι P)
    (x y : Tensor ι) (z_s : ℚ) (p : P) :
    l.time_delay x y z_s p = timeDelaySpec l x y z_s p := by
  funext i
  simp only [ThinLens.time_delay, timeDelaySpec]
  ring

/-- C4: for every `ThinLens` and all inputs, `raytrace(x, y, z_s, p)` equals
`(x − α_x, y − α_y)` exactly, where `(α_x, α_y)` is the reduced deflection
angle at the same inputs, for every coordinate batch shape `ι`. -/
theorem thin_raytrace_subtracts_deflection {ι P : Type} (l : ThinLens ι P)
    (x y : Tensor ι) (z_s : ℚ) (p : P) :
    l.raytrace x y z_s p
      = (x - (l.reduced_deflection_angle x y z_s p).1,
         y - (l.reduced_deflection_angle x y z_s p).2) := rfl

/-- C5: for every `ThickLens` and all inputs,
`effective_reduced_deflection_angle(x, y, z_s, p)` equals
`(x − β_x, y − β_y)` where `(β_x, β_y) = raytrace(x, y, z_s, p)`. -/
theorem thick_effective_angle_from_raytrace {ι P : Type} (l : ThickLens ι P)
    (x y : Tensor ι) (z_s : ℚ) (p : P) :
    l.effective_reduced_deflection_angle x y z_s p
      = (x - (l.raytrace x y z_s p).1, y - (l.raytrace x y z_s p).2) := rfl

/-- C3: for every `ThinLens`, `surface_density(x, y, z_s, p)` equals
`convergence(x, y, z_s, p)` multiplied by the cosmology's
`critical_surface_density(z_l, z_s, p)`, where `z_l` is resolved as the first
element of the unpacked parameter tuple, and that first element is the
lens-declared `z_l` because superclass-declared parameters unpack before
subclass-declared ones. -/
theorem surface_density_is_convergence_times_critical {ι P : Type}
    (l : ThinLens ι P) (x y : Tensor ι) (z_s : ℚ) (p : P) :
    l.surface_density x y z_s p
      = (fun i => l.convergence x y z_s p i
          * l.cosmology.critical_surface_density ((l.unpack p).headD 0) z_s p)
    ∧ (l.unpack p).headD 0 = l.z_l p := ⟨rfl, rfl⟩

/-- C2: for both `ThickLens` and `ThinLens`, `magnification` is obtained by
applying the shared utility `get_magnification` to that lens's own `raytrace`
(the observed→source map, with the parameter container partially applied),
and `get_magnification` is `1 / det J` at every coordinate, where `J` is the
autodiff substrate's Jacobian of the supplied raytrace map; the result has
the input coordinate shape `ι`. -/
theorem magnification_is_inverse_det_of_raytrace_jacobian {ι P : Type}
    (ad : Autograd ι) (tl : ThinLens ι P) (kl : ThickLens ι P)
    (x y : Tensor ι) (z_s : ℚ) (p : P) :
    tl.magnification ad x y z_s p
        = get_magnification ad (fun a b zs => tl.raytrace a b zs p) x y z_s
    ∧ kl.magnification ad x y z_s p
        = get_magnification ad (fun a b zs => kl.raytrace a b zs p) x y z_s
    ∧ ∀ (f : Tensor ι → Tensor ι → ℚ → Tensor ι × Tensor ι) (i : ι),
        get_magnification ad f x y z_s i = 1 / (ad.jacobian f x y z_s i).det :=
  ⟨rfl, rfl, fun _ _ => rfl⟩

/-- C7: for every `ThickLens` and every input, `physical_deflection_angle`
fails with the not-implemented condition (a thick lens has no single lens
plane) and never returns a value. -/
theorem thick_physical_deflection_angle_not_implemented {ι P : Type}
    (l : ThickLens ι P) (x y : Tensor ι) (z_s : ℚ) (p : P) :
    l.physical_deflection_angle x y z_s p = .error thickLensPhysicalMsg
    ∧ ∀ v, l.physical_deflection_angle x y z_s p ≠ .ok v :=
  ⟨rfl, fun _ h => Except.noConfusion h⟩

/-- C6: for every `ThickLens` and all inputs, `reduced_deflection_angle`
succeeds (never raises), emits exactly one warning — whose text says the
distance `D_{ls}` is undefined and recommends
`effective_reduced_deflection_angle` — and returns the value of
`effective_reduced_deflection_angle` at the identical inputs. -/
theorem thick_reduced_deflection_angle_deprecation {ι P : Type}
    (l : ThickLens ι P) (x y : Tensor ι) (z_s : ℚ) (p : P) :
    l.reduced_deflection_angle x y z_s p
        = .ok (l.effective_reduced_deflection_angle x y z_s p, [thickLensDeprecationMsg])
    ∧ [thickLensDeprecationMsg].length = 1
    ∧ dlsUndefinedPhrase.toList <:+: thickLensDeprecationMsg.toList
    ∧ effectiveAnglePhrase.toList <:+: thickLensDeprecationMsg.toList :=
  ⟨rfl, rfl, by decide, by decide⟩

/-- C9: the autograd Jacobian computation of `ThinLens` operates on detached
copies of the input coordinate tensors — the Jacobian is evaluated at the
original coordinate values while the caller's `x` and `y` objects, including
their gradient-tracking flags, come back unchanged — and the returned
`(..., 2, 2)` Jacobian tensor is detached before being returned. -/
theorem autograd_jacobian_frame_effects {ι P : Type} (l : ThinLens ι P)
    (ad : Autograd ι) (x y : TTensor ι) (z_s : ℚ) (p : P) :
    (l._jacobian_reduced_deflection_angle_autograd ad x y z_s p).2.1 = x
    ∧ (l._jacobian_reduced_deflection_angle_autograd ad x y z_s p).2.2 = y
    ∧ (l._jacobian_reduced_deflection_angle_autograd ad x y z_s p).1.requires_grad = false
    ∧ (l._jacobian_reduced_deflection_angle_autograd ad x y z_s p).1.val
        = ad.jacobian (fun a b zs => l.reduced_deflection_angle a b zs p) x.val y.val z_s :=
  ⟨rfl, rfl, rfl, rfl⟩

/-- C10: `ExternalShear.convergence` returns the zero tensor of the shape of
`x` for every input and for every value of the shear parameters `x0`, `y0`,
`gamma_1`, `gamma_2` — not only for null parameters — so the derived
`surface_density` is zero everywhere regardless of the shear strength. -/
theorem external_shear_convergence_zero {ι P : Type} (cosmo : Cosmology P)
    (z_l x0 y0 gamma_1 gamma_2 : P → ℚ) (x y : Tensor ι) (z_s : ℚ) (p : P) :
    (ExternalShear cosmo z_l x0 y0 gamma_1 gamma_2).convergence x y z_s p = zeros_like x
    ∧ ∀ i, (ExternalShear cosmo z_l x0 y0 gamma_1 gamma_2).convergence x y z_s p i = 0
    ∧ (ExternalShear cosmo z_l x0 y0 gamma_1 gamma_2).surface_density x y z_s p i = 0 := by
  refine ⟨rfl, fun i => ⟨rfl, ?_⟩⟩
  simp [ThinLens.surface_density, ExternalShear, zeros_like]

/-- C8: `ThinLens.jacobian_reduced_deflection_angle` fails with the
invalid-argument message listing the valid choices (`autograd`, `fft`)
whenever `method` is neither of them; fails with the invalid-argument message
naming the missing pixelscale when `method` is `"fft"` and no pixelscale is
given; and otherwise dispatches, without an argument error, to the autograd
Jacobian for `"autograd"` and to the FFT Jacobian for `"fft"` with a
pixelscale. -/
theorem jacobian_dispatch_errors_and_branches {n : ℕ} {P C : Type}
    (l : ThinLens (Grid2 n) P) (ad : Autograd (Grid2 n)) (fft : TorchFFT C)
    (x y : TTensor (Grid2 n)) (z_s : ℚ) (p : P)
    (method : String) (pixelscale : Option ℚ) :
    (method ≠ autogradMethod → method ≠ fftMethod →
      l.jacobian_reduced_deflection_angle ad fft x y z_s p method pixelscale
        = .error methodChoicesMsg)
    ∧ l.jacobian_reduced_deflection_angle ad fft x y z_s p fftMethod none
        = .error fftPixelscaleMsg
    ∧ l.jacobian_reduced_deflection_angle ad fft x y z_s p autogradMethod pixelscale
        = .ok (l._jacobian_reduced_deflection_angle_autograd ad x y z_s p).1.val
    ∧ ∀ ps : ℚ,
        l.jacobian_reduced_deflection_angle ad fft x y z_s p fftMethod (some ps)
          = .ok (l._lensing_jacobian_fft_method fft x.val y.val z_s ps p) := by
  refine ⟨fun h1 h2 => ?_, rfl, rfl, fun ps => rfl⟩
  unfold ThinLens.jacobian_reduced_deflection_angle
  rw [if_neg (show ¬(method = "autograd") from fun h => h1 h),
    if_neg (show ¬(method = "fft") from fun h => h2 h)]

/-- Witness for C8: the dispatcher at the concrete unit lens rejects the
method `"bogus"` with the message listing the valid choices, the hypotheses
`"bogus" ≠ "autograd"` and `"bogus" ≠ "fft"` holding by computation. -/
theorem jacobian_dispatch_errors_and_branches_witness :
    bogusMethod ≠ autogradMethod ∧ bogusMethod ≠ fftMethod
    ∧ unitLens.jacobian_reduced_deflection_angle unitAutograd unitFFT unitT unitT 0 () bogusMethod none
        = .error methodChoicesMsg :=
  ⟨by decide, by decide,
    (jacobian_dispatch_errors_and_branches unitLens unitAutograd unitFFT unitT unitT 0 ()
      bogusMethod none).1 (by decide) (by decide)⟩
